import Mathlib

/-!
Verification development for the native x86-64 code-generation backend of the
zen compiler (`src/native_codegen.c` together with the declarations in
`codegen/native_codegen.h` and the AST model of `frontend/ast/ast.h`).

The development shallowly embeds, in order:
* the data model (registers, operands, instructions, symbol tables, the
  `NativeCodeGen` context);
* the IR emission helpers (`emit_instruction*`, `emit_label`, symbol
  management, `native_codegen_error`);
* the AST-to-IR lowering functions (`native_codegen_expression`,
  `native_codegen_statement`, `native_codegen_function`,
  `native_codegen_program`);
* the machine-code encoder (`generate_machine_code`) and the ELF header
  construction of `generate_elf_executable`;
* two executable semantics used to state behavioural claims: a small-step
  interpreter for the IR instruction sequence, and a decoder/interpreter for
  the x86-64 byte subset the encoder emits.

C-to-Lean modelling conventions: heap allocation is assumed to succeed
(`malloc` failure paths are unreachable in the model); the singly-linked
instruction list with tail append is a Lean `List` in emission order; the
symbol lists, which the C code prepends to, are Lean `List`s whose head is
the most recently added entry; C strings are `String`; machine integers are
`Int`/`Nat` with explicit two's-complement reduction where the encoder
serialises them.  Number literals are stored as `double` in the C AST and
cast to `int64_t` at the single point of use, so the model carries the
already-truncated integer.  `fprintf`/`printf` console output and file
descriptors are I/O effects outside the modelled state.
-/

set_option maxHeartbeats 1000000

namespace Zen

/-- x86-64 registers, mirroring the `X86Register` enum of
`native_codegen.h` (enum values 0–15). -/
inductive X86Register where
  | REG_RAX | REG_RCX | REG_RDX | REG_RBX
  | REG_RSP | REG_RBP | REG_RSI | REG_RDI
  | REG_R8 | REG_R9 | REG_R10 | REG_R11
  | REG_R12 | REG_R13 | REG_R14 | REG_R15
  deriving DecidableEq, Repr

/-- The numeric enum value of a register, as used by the C code when it
computes `reg & 0x7` during encoding. -/
def X86Register.enc : X86Register → Nat
  | .REG_RAX => 0 | .REG_RCX => 1 | .REG_RDX => 2 | .REG_RBX => 3
  | .REG_RSP => 4 | .REG_RBP => 5 | .REG_RSI => 6 | .REG_RDI => 7
  | .REG_R8 => 8 | .REG_R9 => 9 | .REG_R10 => 10 | .REG_R11 => 11
  | .REG_R12 => 12 | .REG_R13 => 13 | .REG_R14 => 14 | .REG_R15 => 15

/-- `register_encoding` from `native_codegen.c`: the lower 3 bits of the
register's enum value. -/
def register_encoding (reg : X86Register) : Nat :=
  reg.enc &&& 0x7

/-- Opcodes of the IR, mirroring the `X86Instruction` enum of
`native_codegen.h`. -/
inductive X86Instruction where
  | INST_MOV | INST_PUSH | INST_POP | INST_ADD | INST_SUB | INST_MUL | INST_DIV
  | INST_CMP | INST_JMP | INST_JE | INST_JNE | INST_JL | INST_JLE | INST_JG
  | INST_JGE | INST_CALL | INST_RET | INST_NOP | INST_SYSCALL | INST_XOR
  | INST_LEA | INST_INT3 | INST_SETE | INST_SETNE | INST_SETL | INST_SETLE
  | INST_SETG | INST_SETGE | INST_MOVZX
  deriving DecidableEq, Repr

/-- The tagged union inside the C `Operand` struct (`OperandType` plus the
`value` union). -/
inductive OperandValue where
  | register (reg : X86Register)
  | immediate (immediate : Int)
  | memory (base : X86Register) (offset : Int)
  | label (label : String)
  deriving DecidableEq, Repr

/-- The C `Operand` struct: tagged value plus a byte width (every emitter in
`native_codegen.c` sets the width to 8; nothing reads it). -/
structure Operand where
  value : OperandValue
  size : Nat
  deriving DecidableEq, Repr

/-- The C `Instruction` record: opcode, up to two operands
(`operand_count` = length of the list), and an optional label marking this
position.  The `next` pointer of the C linked list is the list structure. -/
structure Instruction where
  opcode : X86Instruction
  operands : List Operand
  label : Option String
  deriving DecidableEq, Repr

/-- The C `StringLiteral` record. -/
structure StringLiteral where
  label : String
  content : String
  length : Nat
  deriving DecidableEq, Repr

/-- The C `FunctionSymbol` record. -/
structure FunctionSymbol where
  name : String
  label : String
  stack_size : Int
  deriving DecidableEq, Repr

/-- The Zen source-level types (`ZenType` in `ast.h`). -/
inductive ZenType where
  | TYPE_I32 | TYPE_F64 | TYPE_STRING | TYPE_BOOL | TYPE_VOID | TYPE_UNKNOWN
  deriving DecidableEq, Repr

/-- The C `VariableSymbol` record. -/
structure VariableSymbol where
  name : String
  type : ZenType
  is_const : Bool
  stack_offset : Int
  deriving DecidableEq, Repr

/-- The `NativeCodeGen` context.  `instructions` is kept in emission order
(the C code appends at `last_instruction`); `string_literals`, `functions`
and `variables'` have the most recent entry first (the C code prepends);
`code_buffer` holds the `code_size` bytes written so far. -/
structure NativeCodeGen where
  instructions : List Instruction
  string_literals : List StringLiteral
  functions : List FunctionSymbol
  variables' : List VariableSymbol
  current_function : Option String
  stack_offset : Int
  label_counter : Nat
  code_buffer : List Nat
  had_error : Bool
  error_message : Option String
  deriving DecidableEq, Repr

/-- `native_codegen_create`: the freshly initialised context (allocation is
assumed to succeed). -/
def native_codegen_create : NativeCodeGen :=
  { instructions := []
    string_literals := []
    functions := []
    variables' := []
    current_function := none
    stack_offset := 0
    label_counter := 0
    code_buffer := []
    had_error := false
    error_message := none }

/-- `native_codegen_error`: sets the error flag and replaces the stored
message (the C code frees the previous message and copies the new one in;
the `fprintf` to stderr is I/O outside the model). -/
def native_codegen_error (codegen : NativeCodeGen) (message : String) :
    NativeCodeGen :=
  { codegen with had_error := true, error_message := some message }

/-- `create_label`: formats `prefix_counter` and bumps the counter. -/
def create_label (codegen : NativeCodeGen) (pre : String) :
    String × NativeCodeGen :=
  (pre ++ "_" ++ toString codegen.label_counter,
    { codegen with label_counter := codegen.label_counter + 1 })

/-- Appends an instruction at the tail of the sequence, the common code of
all `emit_*` helpers (the C `last_instruction` tail pointer). -/
def append_instruction (codegen : NativeCodeGen) (inst : Instruction) :
    NativeCodeGen :=
  { codegen with instructions := codegen.instructions ++ [inst] }

/-- `emit_label`: appends a `INST_NOP` marker instruction carrying the label. -/
def emit_label (codegen : NativeCodeGen) (label : String) : NativeCodeGen :=
  append_instruction codegen
    { opcode := .INST_NOP, operands := [], label := some label }

/-- `emit_instruction`: appends a 0-operand instruction. -/
def emit_instruction (codegen : NativeCodeGen) (opcode : X86Instruction) :
    NativeCodeGen :=
  append_instruction codegen { opcode := opcode, operands := [], label := none }

/-- `emit_instruction_reg`: appends a 1-operand (register) instruction. -/
def emit_instruction_reg (codegen : NativeCodeGen) (opcode : X86Instruction)
    (reg : X86Register) : NativeCodeGen :=
  append_instruction codegen
    { opcode := opcode
      operands := [{ value := .register reg, size := 8 }]
      label := none }

/-- `emit_instruction_reg_reg`: appends a register-register instruction. -/
def emit_instruction_reg_reg (codegen : NativeCodeGen)
    (opcode : X86Instruction) (dst src : X86Register) : NativeCodeGen :=
  append_instruction codegen
    { opcode := opcode
      operands := [{ value := .register dst, size := 8 },
                   { value := .register src, size := 8 }]
      label := none }

/-- `emit_instruction_reg_imm`: appends a register-immediate instruction. -/
def emit_instruction_reg_imm (codegen : NativeCodeGen)
    (opcode : X86Instruction) (reg : X86Register) (imm : Int) :
    NativeCodeGen :=
  append_instruction codegen
    { opcode := opcode
      operands := [{ value := .register reg, size := 8 },
                   { value := .immediate imm, size := 8 }]
      label := none }

/-- `emit_instruction_reg_mem`: appends a register ← memory instruction. -/
def emit_instruction_reg_mem (codegen : NativeCodeGen)
    (opcode : X86Instruction) (reg base : X86Register) (offset : Int) :
    NativeCodeGen :=
  append_instruction codegen
    { opcode := opcode
      operands := [{ value := .register reg, size := 8 },
                   { value := .memory base offset, size := 8 }]
      label := none }

/-- `emit_instruction_mem_reg`: appends a memory ← register instruction. -/
def emit_instruction_mem_reg (codegen : NativeCodeGen)
    (opcode : X86Instruction) (base : X86Register) (offset : Int)
    (reg : X86Register) : NativeCodeGen :=
  append_instruction codegen
    { opcode := opcode
      operands := [{ value := .memory base offset, size := 8 },
                   { value := .register reg, size := 8 }]
      label := none }

/-- `emit_instruction_label`: appends an instruction with one label operand. -/
def emit_instruction_label (codegen : NativeCodeGen)
    (opcode : X86Instruction) (label : String) : NativeCodeGen :=
  append_instruction codegen
    { opcode := opcode
      operands := [{ value := .label label, size := 8 }]
      label := none }

/-- `add_string_literal`: interns a string under a fresh `str_N` label,
prepending it to the literal table. -/
def add_string_literal (codegen : NativeCodeGen) (content : String) :
    StringLiteral × NativeCodeGen :=
  let (label, codegen) := create_label codegen "str"
  let str : StringLiteral :=
    { label := label, content := content, length := content.length }
  (str, { codegen with string_literals := str :: codegen.string_literals })

/-- `add_function_symbol`: registers a function under a fresh `func_N`
label, prepending it to the function table. -/
def add_function_symbol (codegen : NativeCodeGen) (name : String) :
    FunctionSymbol × NativeCodeGen :=
  let (label, codegen) := create_label codegen "func"
  let func : FunctionSymbol := { name := name, label := label, stack_size := 0 }
  (func, { codegen with functions := func :: codegen.functions })

/-- `add_variable_symbol`: binds `name` at the current stack offset and
advances the offset by the fixed 8-byte slot, prepending the binding to the
variable table. -/
def add_variable_symbol (codegen : NativeCodeGen) (name : String)
    (type : ZenType) (is_const : Bool) : VariableSymbol × NativeCodeGen :=
  let var : VariableSymbol :=
    { name := name, type := type, is_const := is_const
      stack_offset := codegen.stack_offset }
  (var, { codegen with
            stack_offset := codegen.stack_offset + 8
            variables' := var :: codegen.variables' })

/-- `lookup_variable`: scans the variable table from the most recent
binding (the C list head) and returns the first name match. -/
def lookup_variable (codegen : NativeCodeGen) (name : String) :
    Option VariableSymbol :=
  codegen.variables'.find? (fun var => var.name == name)

/-- `emit_syscall_write`: looks the label up in the literal table and—in
the C code—prints the content with `printf` during code generation (a
compile-time I/O effect outside the modelled state); a missing label is an
error. -/
def emit_syscall_write (codegen : NativeCodeGen) (string_label : String) :
    NativeCodeGen :=
  match codegen.string_literals.find? (fun str => str.label == string_label) with
  | none => native_codegen_error codegen "String literal not found for print"
  | some _ => codegen

/-- `emit_syscall_exit`: emits `mov rax, 60; mov rdi, exit_code; syscall`. -/
def emit_syscall_exit (codegen : NativeCodeGen) (exit_code : Int) :
    NativeCodeGen :=
  let codegen := emit_instruction_reg_imm codegen .INST_MOV .REG_RAX 60
  let codegen := emit_instruction_reg_imm codegen .INST_MOV .REG_RDI exit_code
  emit_instruction codegen .INST_SYSCALL

/-! ## The AST consumed by the backend (`frontend/ast/ast.h`)

The C AST is a family of structs discriminated by `ASTNodeType`; child
pointers (`ASTNode*`, `ASTNode**` arrays, nullable pointers) become a
mutual inductive family: `ASTNode`, `ASTNodeList` (the `ASTNode**` arrays
with their counts) and `ASTNodeOpt` (nullable child pointers).  Number
literals carry the integer the C code obtains by casting the stored
`double` with `(int64_t)`.  `AST_INTERPOLATION_EXPR` has a type tag but no
struct in `ast.h`, so it is a bare constructor. -/

/-- `LiteralType` with the corresponding member of the literal's `value`
union. -/
inductive LiteralValue where
  | LITERAL_NUMBER (value : Int)
  | LITERAL_STRING (value : String)
  | LITERAL_BOOLEAN (value : Bool)
  | LITERAL_NULL
  deriving DecidableEq, Repr

/-- `BinaryOperator` from `ast.h`. -/
inductive BinaryOperator where
  | BINARY_ADD | BINARY_SUBTRACT | BINARY_MULTIPLY | BINARY_DIVIDE
  | BINARY_MODULO | BINARY_EQUAL | BINARY_NOT_EQUAL | BINARY_LESS
  | BINARY_LESS_EQUAL | BINARY_GREATER | BINARY_GREATER_EQUAL
  | BINARY_AND | BINARY_OR | BINARY_IS
  deriving DecidableEq, Repr

/-- `UnaryOperator` from `ast.h`. -/
inductive UnaryOperator where
  | UNARY_MINUS | UNARY_NOT
  deriving DecidableEq, Repr

/-- `FunctionParameter` from `ast.h`. -/
structure FunctionParameter where
  name : String
  param_type : ZenType
  deriving DecidableEq, Repr

mutual

/-- The AST node family of `ast.h`, one constructor per `ASTNodeType`. -/
inductive ASTNode where
  | literalExpr (lit : LiteralValue)
  | identifierExpr (name : String)
  | binaryExpr (op : BinaryOperator) (left right : ASTNode)
  | unaryExpr (op : UnaryOperator) (operand : ASTNode)
  | callExpr (callee : ASTNode) (arguments : ASTNodeList)
  | interpolationExpr
  | expressionStmt (expression : ASTNode)
  | varDeclaration (name : String) (var_type : ZenType) (is_const : Bool)
      (initializer : ASTNodeOpt)
  | functionDeclaration (name : String) (parameters : List FunctionParameter)
      (return_type : ZenType) (body : ASTNode)
  | returnStmt (value : ASTNodeOpt)
  | blockStmt (statements : ASTNodeList)
  | ifStmt (condition then_branch : ASTNode) (else_branch : ASTNodeOpt)
  | whileStmt (condition body : ASTNode)
  | forStmt (variable' : String) (iterable body : ASTNode)
  | program (declarations : ASTNodeList)
  deriving DecidableEq, Repr

/-- An `ASTNode**` array with its element count. -/
inductive ASTNodeList where
  | nil
  | cons (head : ASTNode) (tail : ASTNodeList)
  deriving DecidableEq, Repr

/-- A nullable `ASTNode*` child. -/
inductive ASTNodeOpt where
  | none
  | some (node : ASTNode)
  deriving DecidableEq, Repr

end

/-! ## AST-to-IR lowering (`native_codegen.c`)

`native_codegen_expression` dispatches on the node type to
`native_codegen_literal` / `_identifier` / `_binary_expr` / `_unary_expr` /
`_call_expr`; the latter three recurse back into
`native_codegen_expression`.  In the Lean model the bodies of the three
recursive expression helpers are the corresponding match arms of
`native_codegen_expression` (the C passes the same node pointer down-cast,
which structural recursion cannot mirror); the helpers are re-stated under
their C names after the mutual block, and definitional-equality lemmas
(`native_codegen_binary_expr_spec` etc.) tie each helper to its arm.
Each function returns the C `bool` success flag together with the updated
context. -/

/-- `native_codegen_literal`. -/
def native_codegen_literal (codegen : NativeCodeGen) (lit : LiteralValue)
    (result_reg : X86Register) : Bool × NativeCodeGen :=
  match lit with
  | .LITERAL_NUMBER value =>
    (true, emit_instruction_reg_imm codegen .INST_MOV result_reg value)
  | .LITERAL_STRING value =>
    let (_, codegen) := add_string_literal codegen value
    (true, emit_instruction_reg_imm codegen .INST_MOV result_reg 0x600000)
  | .LITERAL_BOOLEAN value =>
    (true, emit_instruction_reg_imm codegen .INST_MOV result_reg
      (if value then 1 else 0))
  | .LITERAL_NULL =>
    (true, emit_instruction_reg_imm codegen .INST_MOV result_reg 0)

/-- `native_codegen_identifier`. -/
def native_codegen_identifier (codegen : NativeCodeGen) (name : String)
    (result_reg : X86Register) : Bool × NativeCodeGen :=
  match lookup_variable codegen name with
  | none => (false, native_codegen_error codegen "Undefined variable")
  | some var =>
    (true, emit_instruction_reg_mem codegen .INST_MOV result_reg .REG_RBP
      (-var.stack_offset))

/-- The tail of `native_codegen_binary_expr`: move the result out of RAX
when the caller asked for a different destination register, then report
success. -/
def binary_result_move (codegen : NativeCodeGen) (result_reg : X86Register) :
    Bool × NativeCodeGen :=
  if result_reg = .REG_RAX then (true, codegen)
  else (true, emit_instruction_reg_reg codegen .INST_MOV result_reg .REG_RAX)

mutual

/-- `native_codegen_expression`: dispatch on the expression node type.  The
`binaryExpr`, `unaryExpr` and `callExpr` arms carry the bodies of
`native_codegen_binary_expr`, `native_codegen_unary_expr` and
`native_codegen_call_expr`. -/
def native_codegen_expression (codegen : NativeCodeGen) (expr : ASTNode)
    (result_reg : X86Register) : Bool × NativeCodeGen :=
  match expr with
  | .literalExpr lit => native_codegen_literal codegen lit result_reg
  | .identifierExpr name => native_codegen_identifier codegen name result_reg
  | .binaryExpr op left right =>
    match native_codegen_expression codegen left .REG_RAX with
    | (false, codegen) => (false, codegen)
    | (true, codegen) =>
      match native_codegen_expression
          (emit_instruction_reg codegen .INST_PUSH .REG_RAX) right .REG_RBX with
      | (false, codegen) => (false, codegen)
      | (true, codegen) =>
        match op with
        | .BINARY_ADD =>
          binary_result_move
            (emit_instruction_reg_reg
              (emit_instruction_reg codegen .INST_POP .REG_RAX)
              .INST_ADD .REG_RAX .REG_RBX) result_reg
        | .BINARY_SUBTRACT =>
          binary_result_move
            (emit_instruction_reg_reg
              (emit_instruction_reg codegen .INST_POP .REG_RAX)
              .INST_SUB .REG_RAX .REG_RBX) result_reg
        | .BINARY_MULTIPLY =>
          binary_result_move
            (emit_instruction_reg_reg
              (emit_instruction_reg codegen .INST_POP .REG_RAX)
              .INST_MUL .REG_RAX .REG_RBX) result_reg
        | .BINARY_DIVIDE =>
          binary_result_move
            (emit_instruction_reg_reg
              (emit_instruction_reg codegen .INST_POP .REG_RAX)
              .INST_DIV .REG_RAX .REG_RBX) result_reg
        | _ =>
          (false, native_codegen_error
            (emit_instruction_reg codegen .INST_POP .REG_RAX)
            "Unsupported binary operator")
  | .unaryExpr op operand =>
    let (ok, codegen) := native_codegen_expression codegen operand result_reg
    if !ok then (false, codegen)
    else
      match op with
      | .UNARY_MINUS =>
        (true, emit_instruction_reg_imm codegen .INST_MUL result_reg (-1))
      | .UNARY_NOT =>
        (true, emit_instruction_reg_imm codegen .INST_CMP result_reg 0)
  | .callExpr callee args =>
    match callee with
    | .identifierExpr func_name =>
      if func_name == "print" then
        match args with
        | .cons arg .nil =>
          let (ok, codegen) := native_codegen_expression codegen arg .REG_RAX
          if !ok then (false, codegen)
          else
            match arg with
            | .literalExpr (.LITERAL_STRING _) =>
              (match codegen.string_literals with
               | str :: _ => (true, emit_syscall_write codegen str.label)
               | [] => (true, codegen))
            | .identifierExpr _ =>
              (match codegen.string_literals with
               | str :: _ => (true, emit_syscall_write codegen str.label)
               | [] => (true, codegen))
            | _ => (true, codegen)
        | _ =>
          (false, native_codegen_error codegen "print requires exactly one argument")
      else (false, native_codegen_error codegen "Function calls not yet implemented")
    | _ => (false, native_codegen_error codegen "Only direct function calls supported")
  | _ => (false, native_codegen_error codegen "Unsupported expression type")

/-- `native_codegen_statement`: dispatch on the statement node type.  The
`expressionStmt` arm is the one-line body of
`native_codegen_expression_stmt`. -/
def native_codegen_statement (codegen : NativeCodeGen) (stmt : ASTNode) :
    Bool × NativeCodeGen :=
  match stmt with
  | .varDeclaration name var_type is_const initializer =>
    native_codegen_var_declaration codegen name var_type is_const initializer
  | .returnStmt value => native_codegen_return_stmt codegen value
  | .blockStmt statements => native_codegen_block_stmt codegen statements
  | .expressionStmt expression =>
    native_codegen_expression codegen expression .REG_RAX
  | _ => (false, native_codegen_error codegen "Unsupported statement type")

/-- `native_codegen_var_declaration` (the node's `name`, `var_type`,
`is_const` and `initializer` fields are passed individually). -/
def native_codegen_var_declaration (codegen : NativeCodeGen) (name : String)
    (var_type : ZenType) (is_const : Bool) (initializer : ASTNodeOpt) :
    Bool × NativeCodeGen :=
  let (symbol, codegen) := add_variable_symbol codegen name var_type is_const
  match initializer with
  | .none => (true, codegen)
  | .some init =>
    let (ok, codegen) := native_codegen_expression codegen init .REG_RAX
    if !ok then (false, codegen)
    else
      (true, emit_instruction_mem_reg codegen .INST_MOV .REG_RBP
        (-symbol.stack_offset) .REG_RAX)

/-- `native_codegen_return_stmt` (the node's `value` field is passed
directly). -/
def native_codegen_return_stmt (codegen : NativeCodeGen)
    (value : ASTNodeOpt) : Bool × NativeCodeGen :=
  let (ok, codegen) :=
    match value with
    | .some v => native_codegen_expression codegen v .REG_RAX
    | .none => (true, emit_instruction_reg_imm codegen .INST_MOV .REG_RAX 0)
  if !ok then (false, codegen)
  else
    let codegen := emit_instruction_reg_reg codegen .INST_MOV .REG_RSP .REG_RBP
    let codegen := emit_instruction_reg codegen .INST_POP .REG_RBP
    (true, emit_instruction codegen .INST_RET)

/-- `native_codegen_block_stmt` (the node's `statements` array is passed
directly): lower each statement in order, stopping at the first failure. -/
def native_codegen_block_stmt (codegen : NativeCodeGen)
    (statements : ASTNodeList) : Bool × NativeCodeGen :=
  match statements with
  | .nil => (true, codegen)
  | .cons stmt rest =>
    let (ok, codegen) := native_codegen_statement codegen stmt
    if !ok then (false, codegen)
    else native_codegen_block_stmt codegen rest

end

/-- `native_codegen_binary_expr`, restated under its C name; its body is
the `binaryExpr` arm of `native_codegen_expression`. -/
def native_codegen_binary_expr (codegen : NativeCodeGen)
    (op : BinaryOperator) (left right : ASTNode) (result_reg : X86Register) :
    Bool × NativeCodeGen :=
  match native_codegen_expression codegen left .REG_RAX with
  | (false, codegen) => (false, codegen)
  | (true, codegen) =>
    match native_codegen_expression
        (emit_instruction_reg codegen .INST_PUSH .REG_RAX) right .REG_RBX with
    | (false, codegen) => (false, codegen)
    | (true, codegen) =>
      match op with
      | .BINARY_ADD =>
        binary_result_move
          (emit_instruction_reg_reg
            (emit_instruction_reg codegen .INST_POP .REG_RAX)
            .INST_ADD .REG_RAX .REG_RBX) result_reg
      | .BINARY_SUBTRACT =>
        binary_result_move
          (emit_instruction_reg_reg
            (emit_instruction_reg codegen .INST_POP .REG_RAX)
            .INST_SUB .REG_RAX .REG_RBX) result_reg
      | .BINARY_MULTIPLY =>
        binary_result_move
          (emit_instruction_reg_reg
            (emit_instruction_reg codegen .INST_POP .REG_RAX)
            .INST_MUL .REG_RAX .REG_RBX) result_reg
      | .BINARY_DIVIDE =>
        binary_result_move
          (emit_instruction_reg_reg
            (emit_instruction_reg codegen .INST_POP .REG_RAX)
            .INST_DIV .REG_RAX .REG_RBX) result_reg
      | _ =>
        (false, native_codegen_error
          (emit_instruction_reg codegen .INST_POP .REG_RAX)
          "Unsupported binary operator")

/-- `native_codegen_expression_stmt`, restated under its C name; its body
is the `expressionStmt` arm of `native_codegen_statement`. -/
def native_codegen_expression_stmt (codegen : NativeCodeGen)
    (expression : ASTNode) : Bool × NativeCodeGen :=
  native_codegen_expression codegen expression .REG_RAX

/-- `native_codegen_function` (the C code reads only the declaration's
`name` and `body` fields, which are passed individually): register the
function symbol, set the current-function context, emit the label and
prologue, reset the stack-offset cursor to 8, lower the body, then emit the
unconditional default return. -/
def native_codegen_function (codegen : NativeCodeGen) (name : String)
    (body : ASTNode) : Bool × NativeCodeGen :=
  let (symbol, codegen) := add_function_symbol codegen name
  let codegen := { codegen with current_function := some name }
  let codegen := emit_label codegen symbol.label
  let codegen := emit_instruction_reg codegen .INST_PUSH .REG_RBP
  let codegen := emit_instruction_reg_reg codegen .INST_MOV .REG_RBP .REG_RSP
  let codegen := { codegen with stack_offset := 8 }
  let (ok, codegen) := native_codegen_statement codegen body
  if !ok then (false, codegen)
  else
    let codegen := emit_instruction_reg_imm codegen .INST_MOV .REG_RAX 0
    let codegen := emit_instruction_reg_reg codegen .INST_MOV .REG_RSP .REG_RBP
    let codegen := emit_instruction_reg codegen .INST_POP .REG_RBP
    (true, emit_instruction codegen .INST_RET)

/-- The declaration loop of `native_codegen_program`: lowers every
function declaration, tracking whether a `main` was seen and re-scanning
the function table for the `main` symbol after lowering it; non-function
declarations are skipped.  Returns the C early-exit flag, the context, and
the two accumulator variables. -/
def native_codegen_program_loop (codegen : NativeCodeGen)
    (decls : ASTNodeList) (has_main : Bool)
    (main_func : Option FunctionSymbol) :
    Bool × NativeCodeGen × Bool × Option FunctionSymbol :=
  match decls with
  | .nil => (true, codegen, has_main, main_func)
  | .cons decl rest =>
    match decl with
    | .functionDeclaration name _ _ body =>
      let has_main := has_main || name == "main"
      let (ok, codegen) := native_codegen_function codegen name body
      if !ok then (false, codegen, has_main, main_func)
      else
        let main_func :=
          if name == "main" then
            codegen.functions.find? (fun fsym => fsym.name == "main")
          else main_func
        native_codegen_program_loop codegen rest has_main main_func
    | _ => native_codegen_program_loop codegen rest has_main main_func

/-- `native_codegen_program` (the program node's `declarations` array is
passed directly): lower all functions, require a `main`, then emit the
`_start` entry point — call `main`'s label, move RAX into RDI, and issue
the exit syscall sequence with the constant argument 0. -/
def native_codegen_program (codegen : NativeCodeGen)
    (declarations : ASTNodeList) : Bool × NativeCodeGen :=
  let (ok, codegen, has_main, main_func) :=
    native_codegen_program_loop codegen declarations false none
  if !ok then (false, codegen)
  else if !has_main then
    (false, native_codegen_error codegen "No main function found")
  else
    let codegen := emit_label codegen "_start"
    let codegen :=
      match main_func with
      | some func => emit_instruction_label codegen .INST_CALL func.label
      | none => emit_instruction_label codegen .INST_CALL "func_0"
    let codegen := emit_instruction_reg_reg codegen .INST_MOV .REG_RDI .REG_RAX
    (true, emit_syscall_exit codegen 0)

/-- `native_codegen_generate`: checks the root is a program node and
delegates (the null-argument check is unrepresentable here). -/
def native_codegen_generate (codegen : NativeCodeGen) (program : ASTNode) :
    Bool × NativeCodeGen :=
  match program with
  | .program declarations => native_codegen_program codegen declarations
  | _ => (false, native_codegen_error codegen "Expected program node")

/-! ## The machine-code encoder (`generate_machine_code`)

The C function walks the instruction list once.  Label markers
(`INST_NOP` with a label) are skipped.  For every other instruction the
switch appends the encoded bytes of that single instruction to
`code_buffer` at the running `code_size` cursor — the cursor is never reset,
so the bytes are appended to whatever the buffer already holds.  `realloc`
is assumed to succeed, so the function's only `return false` path is
unreachable and it always reports success. -/

/-- The little-endian serialisation loop for a `mov reg, imm64`: the C
code appends `(imm >> (i*8)) & 0xFF` for `i = 0..7`, i.e. the eight bytes
of the immediate's two's-complement representation. -/
def imm64_bytes (imm : Int) : List Nat :=
  (List.range 8).map
    (fun i => ((imm.emod 18446744073709551616).toNat >>> (8 * i)) &&& 0xFF)

/-- One iteration of the `generate_machine_code` switch: the bytes emitted
for a single (non-label-marker) instruction.  The C declares this logic as
`encode_instruction` in the header and inlines it in the switch. -/
def encode_instruction (inst : Instruction) : List Nat :=
  match inst.opcode with
  | .INST_MOV =>
    match inst.operands with
    | [op0, op1] =>
      match op0.value, op1.value with
      | .register reg, .immediate imm =>
        0x48 :: (0xB8 + (reg.enc &&& 7)) :: imm64_bytes imm
      | .register dst, .register src =>
        [0x48, 0x89, 0xC0 ||| ((src.enc &&& 7) <<< 3) ||| (dst.enc &&& 7)]
      | _, _ => [0x48, 0x89, 0xC0]
    | _ => []
  | .INST_PUSH =>
    match inst.operands with
    | [op] =>
      match op.value with
      | .register reg => [0x50 + (reg.enc &&& 7)]
      | _ => []
    | _ => []
  | .INST_POP =>
    match inst.operands with
    | [op] =>
      match op.value with
      | .register reg => [0x58 + (reg.enc &&& 7)]
      | _ => []
    | _ => []
  | .INST_CALL => [0xE8, 0x00, 0x00, 0x00, 0x00]
  | .INST_RET => [0xC3]
  | .INST_SYSCALL => [0x0F, 0x05]
  | .INST_ADD =>
    match inst.operands with
    | [op0, op1] =>
      match op0.value, op1.value with
      | .register dst, .register src =>
        [0x48, 0x01, 0xC0 ||| ((src.enc &&& 7) <<< 3) ||| (dst.enc &&& 7)]
      | _, _ => []
    | _ => []
  | .INST_SUB =>
    match inst.operands with
    | [op0, op1] =>
      match op0.value, op1.value with
      | .register dst, .register src =>
        [0x48, 0x29, 0xC0 ||| ((src.enc &&& 7) <<< 3) ||| (dst.enc &&& 7)]
      | _, _ => []
    | _ => []
  | _ => [0x90]

/-- Whether `generate_machine_code` skips this instruction: the C test
`inst->opcode == INST_NOP && inst->label`. -/
def is_label_marker (inst : Instruction) : Bool :=
  inst.opcode == .INST_NOP && inst.label.isSome

/-- The full byte stream one `generate_machine_code` pass emits for an
instruction sequence. -/
def generate_machine_code_bytes : List Instruction → List Nat
  | [] => []
  | inst :: rest =>
    if is_label_marker inst then generate_machine_code_bytes rest
    else encode_instruction inst ++ generate_machine_code_bytes rest

/-- `generate_machine_code`: appends the emitted byte stream to the
context's code buffer (at the never-reset `code_size` cursor) and reports
success. -/
def generate_machine_code (codegen : NativeCodeGen) : Bool × NativeCodeGen :=
  (true,
    { codegen with
        code_buffer :=
          codegen.code_buffer ++ generate_machine_code_bytes codegen.instructions })

/-- The byte offset, in the stream `generate_machine_code` emits for
`insts`, at which the marker for label `l` sits (the mapping a resolution
pass would record; `native_codegen.c` itself never computes it).  The first
argument of the accumulator is the running offset. -/
def resolve_label : List Instruction → Nat → String → Option Nat
  | [], _, _ => none
  | inst :: rest, offset, l =>
    if is_label_marker inst then
      if inst.label = some l then some offset else resolve_label rest offset l
    else resolve_label rest (offset + (encode_instruction inst).length) l

/-! ## ELF emission (`generate_elf_executable`)

The C function first runs `generate_machine_code`, then writes an ELF64
header, one program header and the code bytes to the output file.  File I/O
is outside the model; the modelled result is the updated context plus the
three written pieces.  `sizeof(ELF64_Header) = 64` and
`sizeof(ELF64_ProgramHeader) = 56` (both structs are packed). -/

/-- The fixed load base `BASE_ADDRESS`. -/
def BASE_ADDRESS : Nat := 0x400000

/-- `sizeof(ELF64_Header)` (packed: 16 + 2+2+4 + 3*8 + 4 + 6*2 bytes). -/
def elf_header_size : Nat := 64

/-- `sizeof(ELF64_ProgramHeader)` (packed: 2*4 + 6*8 bytes). -/
def program_header_size : Nat := 56

/-- The `ELF64_Header` struct (field values as `Nat`). -/
structure ELF64_Header where
  e_ident : List Nat
  e_type : Nat
  e_machine : Nat
  e_version : Nat
  e_entry : Nat
  e_phoff : Nat
  e_shoff : Nat
  e_flags : Nat
  e_ehsize : Nat
  e_phentsize : Nat
  e_phnum : Nat
  e_shentsize : Nat
  e_shnum : Nat
  e_shstrndx : Nat
  deriving DecidableEq, Repr

/-- The `ELF64_ProgramHeader` struct. -/
structure ELF64_ProgramHeader where
  p_type : Nat
  p_flags : Nat
  p_offset : Nat
  p_vaddr : Nat
  p_paddr : Nat
  p_filesz : Nat
  p_memsz : Nat
  p_align : Nat
  deriving DecidableEq, Repr

/-- `generate_elf_executable`: run the encoder, then build the two headers
exactly as the C initialisers do ('E' = 69, 'L' = 76, 'F' = 70) and write
header, program header and code bytes (the file-descriptor handling is
I/O outside the model, assumed to succeed). -/
def generate_elf_executable (codegen : NativeCodeGen) :
    NativeCodeGen × ELF64_Header × ELF64_ProgramHeader × List Nat :=
  let (_, codegen) := generate_machine_code codegen
  let elf_header : ELF64_Header :=
    { e_ident := [0x7f, 69, 76, 70, 2, 1, 1, 0, 0, 0, 0, 0, 0, 0, 0, 0]
      e_type := 2
      e_machine := 62
      e_version := 1
      e_entry := BASE_ADDRESS + elf_header_size + program_header_size
      e_phoff := elf_header_size
      e_shoff := 0
      e_flags := 0
      e_ehsize := elf_header_size
      e_phentsize := program_header_size
      e_phnum := 1
      e_shentsize := 0
      e_shnum := 0
      e_shstrndx := 0 }
  let prog_header : ELF64_ProgramHeader :=
    { p_type := 1
      p_flags := 5
      p_offset := 0
      p_vaddr := BASE_ADDRESS
      p_paddr := BASE_ADDRESS
      p_filesz := elf_header_size + program_header_size + codegen.code_buffer.length
      p_memsz := elf_header_size + program_header_size + codegen.code_buffer.length
      p_align := 0x1000 }
  (codegen, elf_header, prog_header, codegen.code_buffer)

/-! ## An executable semantics for the IR

`native_codegen.c` gives its IR the standard x86-64 reading (the spec's
§4.2/§4.4 describe the intended meaning of each opcode).  To state
behavioural claims the model interprets the instruction sequence directly:
registers hold mathematical integers, the machine stack is a list of
values (`push`/`pop`/`call`/`ret` use it; the `rsp`/`rbp` registers are
plain integer registers whose values the abstract stack does not alias),
and memory is a map from addresses to values.  A `syscall` with RAX = 60
terminates the run with exit status RDI.  Opcodes the backend never emits
(jumps, `setcc`, …) and ill-formed operand shapes have no transition: the
machine is stuck there. -/

/-- The IR machine state. -/
structure IRState where
  regs : X86Register → Int
  stack : List Int
  mem : Int → Int
  pc : Nat
  exit_status : Option Int

/-- Functional update of a register file. -/
def setReg (regs : X86Register → Int) (r : X86Register) (v : Int) :
    X86Register → Int :=
  fun r' => if r' = r then v else regs r'

/-- The index of the instruction carrying label `l` (where a `call` to
`l` lands: execution continues just past the marker). -/
def label_index (insts : List Instruction) (l : String) : Option Nat :=
  insts.findIdx? (fun inst => inst.label == some l)

/-- The result of an ALU opcode, `dst op src`; division truncates toward
zero like x86 `idiv` and has no transition on a zero divisor. -/
def alu_result : X86Instruction → Int → Int → Option Int
  | .INST_ADD, a, b => some (a + b)
  | .INST_SUB, a, b => some (a - b)
  | .INST_MUL, a, b => some (a * b)
  | .INST_DIV, a, b => if b = 0 then none else some (Int.tdiv a b)
  | _, _, _ => none

/-- One step of the IR machine over the instruction sequence `insts`.
`none` when the machine is stuck or `pc` has run off the end. -/
def ir_step (insts : List Instruction) (st : IRState) : Option IRState :=
  match insts.get? st.pc with
  | none => none
  | some inst =>
    match inst.opcode with
    | .INST_NOP => some { st with pc := st.pc + 1 }
    | .INST_MOV =>
      match inst.operands with
      | [op0, op1] =>
        match op0.value, op1.value with
        | .register dst, .immediate imm =>
          some { st with regs := setReg st.regs dst imm, pc := st.pc + 1 }
        | .register dst, .register src =>
          some { st with regs := setReg st.regs dst (st.regs src), pc := st.pc + 1 }
        | .register dst, .memory base offset =>
          some { st with
                   regs := setReg st.regs dst (st.mem (st.regs base + offset))
                   pc := st.pc + 1 }
        | .memory base offset, .register src =>
          some { st with
                   mem := fun a =>
                     if a = st.regs base + offset then st.regs src else st.mem a
                   pc := st.pc + 1 }
        | _, _ => none
      | _ => none
    | .INST_PUSH =>
      match inst.operands with
      | [op] =>
        match op.value with
        | .register reg =>
          some { st with stack := st.regs reg :: st.stack, pc := st.pc + 1 }
        | _ => none
      | _ => none
    | .INST_POP =>
      match inst.operands with
      | [op] =>
        match op.value with
        | .register reg =>
          match st.stack with
          | v :: rest =>
            some { st with regs := setReg st.regs reg v, stack := rest
                           pc := st.pc + 1 }
          | [] => none
        | _ => none
      | _ => none
    | .INST_ADD | .INST_SUB | .INST_MUL | .INST_DIV =>
      match inst.operands with
      | [op0, op1] =>
        match op0.value, op1.value with
        | .register dst, .register src =>
          match alu_result inst.opcode (st.regs dst) (st.regs src) with
          | some v => some { st with regs := setReg st.regs dst v, pc := st.pc + 1 }
          | none => none
        | .register dst, .immediate imm =>
          match alu_result inst.opcode (st.regs dst) imm with
          | some v => some { st with regs := setReg st.regs dst v, pc := st.pc + 1 }
          | none => none
        | _, _ => none
      | _ => none
    | .INST_CALL =>
      match inst.operands with
      | [op] =>
        match op.value with
        | .label l =>
          match label_index insts l with
          | some target =>
            some { st with stack := (st.pc + 1 : Int) :: st.stack, pc := target }
          | none => none
        | _ => none
      | _ => none
    | .INST_RET =>
      match st.stack with
      | v :: rest => some { st with stack := rest, pc := v.toNat }
      | [] => none
    | .INST_SYSCALL =>
      if st.regs .REG_RAX = 60 then
        some { st with exit_status := some (st.regs .REG_RDI), pc := st.pc + 1 }
      else none
    | _ => none

/-- Run the IR machine for at most `fuel` steps, stopping when an exit
status is set or the machine sticks. -/
def ir_run (insts : List Instruction) : Nat → IRState → IRState
  | 0, st => st
  | fuel + 1, st =>
    if st.exit_status.isSome then st
    else
      match ir_step insts st with
      | some st' => ir_run insts fuel st'
      | none => st

/-- The initial IR state: all registers, memory and the stack zeroed /
empty, starting at instruction index `pc`. -/
def ir_initial (pc : Nat) : IRState :=
  { regs := fun _ => 0, stack := [], mem := fun _ => 0, pc := pc
    exit_status := none }

/-! ## An executable semantics for the emitted bytes

To check what the encoder's output actually computes, the model decodes
and executes the x86-64 byte patterns `generate_machine_code` can emit:
`REX.W`-prefixed `mov reg, imm64` / `mov reg, reg` / `add` / `sub`,
single-byte `push`/`pop`, `call rel32`, `ret`, `syscall`, and `nop`
(`0x90`, the architectural no-operation).  Register numbers are the 3-bit
codes the bytes carry (0 = rax … 7 = rdi); as in the IR machine the stack
is abstract and `syscall` with rax = 60 exits with status rdi.  Any other
byte pattern has no transition. -/

/-- The machine state for executing encoded bytes: eight registers indexed
by their 3-bit code, an abstract stack, the instruction pointer (a byte
offset into the code) and the exit status. -/
structure MachState where
  regs : Nat → Int
  stack : List Int
  ip : Nat
  exit_status : Option Int

/-- Functional update of the byte machine's register file. -/
def setMachReg (regs : Nat → Int) (r : Nat) (v : Int) : Nat → Int :=
  fun r' => if r' = r then v else regs r'

/-- Read `count` little-endian bytes at offset `off`, if all are present. -/
def read_bytes_le (code : List Nat) (off : Nat) : Nat → Option Nat
  | 0 => some 0
  | count + 1 =>
    match code.get? off, read_bytes_le code (off + 1) count with
    | some b, some rest => some (b + 256 * rest)
    | _, _ => none

/-- A little-endian 64-bit pattern read as a two's-complement integer. -/
def as_int64 (u : Nat) : Int :=
  if u < 9223372036854775808 then (u : Int) else (u : Int) - 18446744073709551616

/-- A little-endian 32-bit pattern read as a two's-complement integer. -/
def as_int32 (u : Nat) : Int :=
  if u < 2147483648 then (u : Int) else (u : Int) - 4294967296

/-- One step of the byte machine: decode the instruction at `ip` and apply
its architectural effect. -/
def mach_step (code : List Nat) (st : MachState) : Option MachState :=
  match code.get? st.ip with
  | none => none
  | some b0 =>
    if b0 = 0x48 then
      match code.get? (st.ip + 1) with
      | none => none
      | some b1 =>
        if 0xB8 ≤ b1 ∧ b1 ≤ 0xBF then
          match read_bytes_le code (st.ip + 2) 8 with
          | some u =>
            some { st with regs := setMachReg st.regs (b1 - 0xB8) (as_int64 u)
                           ip := st.ip + 10 }
          | none => none
        else if b1 = 0x89 ∨ b1 = 0x01 ∨ b1 = 0x29 then
          match code.get? (st.ip + 2) with
          | none => none
          | some modrm =>
            if 0xC0 ≤ modrm then
              let dst := modrm &&& 7
              let src := (modrm >>> 3) &&& 7
              let value :=
                if b1 = 0x89 then st.regs src
                else if b1 = 0x01 then st.regs dst + st.regs src
                else st.regs dst - st.regs src
              some { st with regs := setMachReg st.regs dst value
                             ip := st.ip + 3 }
            else none
        else none
    else if 0x50 ≤ b0 ∧ b0 ≤ 0x57 then
      some { st with stack := st.regs (b0 - 0x50) :: st.stack, ip := st.ip + 1 }
    else if 0x58 ≤ b0 ∧ b0 ≤ 0x5F then
      match st.stack with
      | v :: rest =>
        some { st with regs := setMachReg st.regs (b0 - 0x58) v, stack := rest
                       ip := st.ip + 1 }
      | [] => none
    else if b0 = 0xE8 then
      match read_bytes_le code (st.ip + 1) 4 with
      | some u =>
        let target : Int := (st.ip : Int) + 5 + as_int32 u
        if 0 ≤ target then
          some { st with stack := ((st.ip : Int) + 5) :: st.stack
                         ip := target.toNat }
        else none
      | none => none
    else if b0 = 0xC3 then
      match st.stack with
      | v :: rest =>
        if 0 ≤ v then some { st with stack := rest, ip := v.toNat } else none
      | [] => none
    else if b0 = 0x0F then
      match code.get? (st.ip + 1) with
      | some 0x05 =>
        if st.regs 0 = 60 then
          some { st with exit_status := some (st.regs 7), ip := st.ip + 2 }
        else none
      | _ => none
    else if b0 = 0x90 then
      some { st with ip := st.ip + 1 }
    else none

/-- Run the byte machine for at most `fuel` steps, stopping at an exit
status or when the machine sticks (in particular when `ip` reaches the end
of the code). -/
def mach_run (code : List Nat) : Nat → MachState → MachState
  | 0, st => st
  | fuel + 1, st =>
    if st.exit_status.isSome then st
    else
      match mach_step code st with
      | some st' => mach_run code fuel st'
      | none => st

/-- The initial byte-machine state at byte offset `ip`. -/
def mach_initial (ip : Nat) : MachState :=
  { regs := fun _ => 0, stack := [], ip := ip, exit_status := none }

/-! ## Concrete test programs -/

/-- The spec's reference program `func main() -> i32 { return 42; }`. -/
def prog42 : ASTNode :=
  .program (.cons
    (.functionDeclaration "main" [] .TYPE_I32
      (.blockStmt (.cons
        (.returnStmt (.some (.literalExpr (.LITERAL_NUMBER 42)))) .nil)))
    .nil)

/-- The context after lowering `prog42` from a fresh context. -/
def cg42 : NativeCodeGen :=
  (native_codegen_generate native_codegen_create prog42).2

/-- The spec's nesting-depth-2 expression `((1+2)*(3+4))`. -/
def expr2134 : ASTNode :=
  .binaryExpr .BINARY_MULTIPLY
    (.binaryExpr .BINARY_ADD
      (.literalExpr (.LITERAL_NUMBER 1)) (.literalExpr (.LITERAL_NUMBER 2)))
    (.binaryExpr .BINARY_ADD
      (.literalExpr (.LITERAL_NUMBER 3)) (.literalExpr (.LITERAL_NUMBER 4)))

/-- The context after lowering `expr2134` into register A from a fresh
context. -/
def cgExpr : NativeCodeGen :=
  (native_codegen_expression native_codegen_create expr2134 .REG_RAX).2

/-- Body of a function `f` declaring one local: `{ var x: i32 = 1; }`. -/
def f_body : ASTNode :=
  .blockStmt (.cons
    (.varDeclaration "x" .TYPE_I32 false
      (.some (.literalExpr (.LITERAL_NUMBER 1)))) .nil)

/-- Body of a function `g` that references `x`, which `g` never declares:
`{ return x; }`. -/
def g_body : ASTNode :=
  .blockStmt (.cons (.returnStmt (.some (.identifierExpr "x"))) .nil)

/-- The context after lowering `func f() { var x: i32 = 1; }` from a fresh
context. -/
def cgF : NativeCodeGen :=
  (native_codegen_function native_codegen_create "f" f_body).2

/-- A context whose IR is the single instruction `ret`. -/
def cgRet : NativeCodeGen :=
  { native_codegen_create with
      instructions := [{ opcode := .INST_RET, operands := [], label := none }] }

/-- How one lowering step may change the function-scoped state: a block
`new` of bindings is prepended to the variable table, their offsets (in
declaration order, i.e. reading `new` backwards) continuing in 8-byte
steps from the incoming cursor, and the cursor advances accordingly. -/
def vars_extends (cg cg' : NativeCodeGen) : Prop :=
  ∃ new : List VariableSymbol,
    cg'.variables' = new ++ cg.variables' ∧
    new.reverse.map VariableSymbol.stack_offset =
      (List.range new.length).map
        (fun i : Nat => cg.stack_offset + 8 * (i : Int)) ∧
    cg'.stack_offset = cg.stack_offset + 8 * new.length

/-- The context at which `native_codegen_function` starts lowering the
body: the function symbol is registered, the current-function name set,
label and prologue emitted, and the stack-offset cursor reset to 8 (read
off the prefix of `native_codegen_function`). -/
def function_entry_state (cg : NativeCodeGen) (name : String) :
    NativeCodeGen :=
  { emit_instruction_reg_reg
      (emit_instruction_reg
        (emit_label
          { (add_function_symbol cg name).2 with current_function := some name }
          (add_function_symbol cg name).1.label)
        .INST_PUSH .REG_RBP)
      .INST_MOV .REG_RBP .REG_RSP with
    stack_offset := 8 }

/-! ## Agreement of the re-stated helpers with their dispatch arms -/

/-- The dispatch arm for binary expressions agrees with
`native_codegen_binary_expr`. -/
theorem native_codegen_binary_expr_spec (codegen : NativeCodeGen)
    (op : BinaryOperator) (left right : ASTNode) (result_reg : X86Register) :
    native_codegen_expression codegen (.binaryExpr op left right) result_reg =
      native_codegen_binary_expr codegen op left right result_reg := by
  rw [native_codegen_expression, native_codegen_binary_expr]

/-- The dispatch arm for expression statements agrees with
`native_codegen_expression_stmt`. -/
theorem native_codegen_expression_stmt_spec (codegen : NativeCodeGen)
    (expression : ASTNode) :
    native_codegen_statement codegen (.expressionStmt expression) =
      native_codegen_expression_stmt codegen expression := by
  rw [native_codegen_statement, native_codegen_expression_stmt]

/-! ## Claims -/

/-- Claim C1.  The `_start` sequence emitted for `prog42` is
`_start: call func_0; mov rdi, rax; mov rax, 60; mov rdi, 0; syscall`:
`emit_syscall_exit(codegen, 0)` re-writes RDI with the constant 0 after the
`mov rdi, rax`, so when the exit syscall is reached RDI holds 0, not main's
return value, and the program exits with status 0 rather than 42.  This
contradicts both the spec and the C code's own comment
"Exit with main's return value (already in RAX)". -/
theorem c1_start_clobbers_rdi_before_syscall :
    (native_codegen_generate native_codegen_create prog42).1 = true ∧
    label_index cg42.instructions "_start" = some 11 ∧
    cg42.instructions.drop 11 =
      [{ opcode := .INST_NOP, operands := [], label := some "_start" },
       { opcode := .INST_CALL,
         operands := [{ value := .label "func_0", size := 8 }], label := none },
       { opcode := .INST_MOV,
         operands := [{ value := .register .REG_RDI, size := 8 },
                      { value := .register .REG_RAX, size := 8 }],
         label := none },
       { opcode := .INST_MOV,
         operands := [{ value := .register .REG_RAX, size := 8 },
                      { value := .immediate 60, size := 8 }], label := none },
       { opcode := .INST_MOV,
         operands := [{ value := .register .REG_RDI, size := 8 },
                      { value := .immediate 0, size := 8 }], label := none },
       { opcode := .INST_SYSCALL, operands := [], label := none }] ∧
    (ir_run cg42.instructions 100 (ir_initial 11)).exit_status = some 0 ∧
    (0 : Int) ≠ 42 := by
  refine ⟨by decide, by decide, by decide, by decide, by decide⟩

/-- Claim C2.  For `prog42` the encoder emits the `call` at byte offset 34
(the resolved offset of `_start`, straight after all function bodies) as
the fixed bytes `E8 00 00 00 00` — displacement 0 regardless of the target —
while the `func_0` label it targets resolves to byte offset 0; hence
`site_offset + instruction_length + displacement = 34 + 5 + 0 = 39 ≠ 0 =
target_offset` and the required displacement equation fails. -/
theorem c2_call_displacement_always_zero :
    resolve_label cg42.instructions 0 "_start" = some 34 ∧
    resolve_label cg42.instructions 0 "func_0" = some 0 ∧
    ((generate_machine_code cg42).2.code_buffer.drop 34).take 5 =
      [0xE8, 0x00, 0x00, 0x00, 0x00] ∧
    34 + 5 + 0 ≠ 0 := by
  refine ⟨by decide, by decide, by decide, by decide⟩

/-- Claim C3, counterexample.  Reporting "A" and then "B" on a fresh
context retains "B": the second report replaces the stored message, so the
retained message is the last one reported, not the first. -/
theorem c3_counterexample_second_message_retained :
    (native_codegen_error (native_codegen_error native_codegen_create "A")
        "B").error_message = some "B" ∧
    (some "B" : Option String) ≠ some "A" := by
  refine ⟨rfl, by decide⟩

/-- Claim C3, amended.  After any nonempty sequence of error reports the
error flag is set and the retained message is the LAST one reported (each
call to `native_codegen_error` frees and replaces the stored message; only
the flag is permanent). -/
theorem c3_last_error_message_retained (cg : NativeCodeGen)
    (msgs : List String) (h : msgs ≠ []) :
    (msgs.foldl native_codegen_error cg).had_error = true ∧
    (msgs.foldl native_codegen_error cg).error_message = msgs.getLast? := by
  induction msgs generalizing cg with
  | nil => exact absurd rfl h
  | cons m rest ih =>
    cases rest with
    | nil => exact ⟨rfl, rfl⟩
    | cons m2 rest2 =>
      have h2 : (m2 :: rest2 : List String) ≠ [] := by simp
      have := ih (native_codegen_error cg m) h2
      simpa [List.getLast?] using this

/-- Claim C3, witness for `c3_last_error_message_retained`. -/
theorem c3_witness :
    (["A", "B"] : List String) ≠ [] ∧
    ((["A", "B"].foldl native_codegen_error native_codegen_create).had_error
        = true ∧
      (["A", "B"].foldl native_codegen_error
          native_codegen_create).error_message = ["A", "B"].getLast?) :=
  ⟨by decide, c3_last_error_message_retained native_codegen_create ["A", "B"]
    (by decide)⟩

/-- Claim C4.  Opcodes without a defined byte encoding (`mul`, `div`,
`cmp`, the jump family, …) hit the encoder's `default` branch, which emits
a single `0x90` nop byte, and `generate_machine_code` still reports
success — there is no hard encoding error.  Stated both generically over
the operands and on a concrete four-instruction sequence. -/
theorem c4_unsupported_opcodes_emit_nop :
    (∀ (ops : List Operand) (lbl : Option String),
      encode_instruction { opcode := .INST_MUL, operands := ops, label := lbl }
          = [0x90] ∧
      encode_instruction { opcode := .INST_DIV, operands := ops, label := lbl }
          = [0x90] ∧
      encode_instruction { opcode := .INST_CMP, operands := ops, label := lbl }
          = [0x90] ∧
      encode_instruction { opcode := .INST_JMP, operands := ops, label := lbl }
          = [0x90] ∧
      encode_instruction { opcode := .INST_JE, operands := ops, label := lbl }
          = [0x90] ∧
      encode_instruction { opcode := .INST_JNE, operands := ops, label := lbl }
          = [0x90]) ∧
    generate_machine_code
        { native_codegen_create with
            instructions :=
              [{ opcode := .INST_MUL,
                 operands := [{ value := .register .REG_RAX, size := 8 },
                              { value := .register .REG_RBX, size := 8 }],
                 label := none },
               { opcode := .INST_DIV,
                 operands := [{ value := .register .REG_RAX, size := 8 },
                              { value := .register .REG_RBX, size := 8 }],
                 label := none },
               { opcode := .INST_CMP,
                 operands := [{ value := .register .REG_RAX, size := 8 },
                              { value := .immediate 0, size := 8 }],
                 label := none },
               { opcode := .INST_JMP,
                 operands := [{ value := .label "L", size := 8 }],
                 label := none }] } =
      (true,
        { native_codegen_create with
            instructions :=
              [{ opcode := .INST_MUL,
                 operands := [{ value := .register .REG_RAX, size := 8 },
                              { value := .register .REG_RBX, size := 8 }],
                 label := none },
               { opcode := .INST_DIV,
                 operands := [{ value := .register .REG_RAX, size := 8 },
                              { value := .register .REG_RBX, size := 8 }],
                 label := none },
               { opcode := .INST_CMP,
                 operands := [{ value := .register .REG_RAX, size := 8 },
                              { value := .immediate 0, size := 8 }],
                 label := none },
               { opcode := .INST_JMP,
                 operands := [{ value := .label "L", size := 8 }],
                 label := none }]
            code_buffer := [0x90, 0x90, 0x90, 0x90] }) := by
  refine ⟨fun ops lbl => ⟨rfl, rfl, rfl, rfl, rfl, rfl⟩, by decide⟩

/-- Claim C5, counterexample.  After lowering `func f() { var x = 1; }`,
lowering `func g() { return x; }` succeeds with no error: `x`, declared
only in the previously lowered `f`, is still found (the variable table is
never reset between functions), and `g`'s body loads it from `f`'s slot
`[rbp - 8]` (the instruction at index 3 of `g`'s emitted code). -/
theorem c5_counterexample_cross_function_lookup_succeeds :
    lookup_variable cgF "x" =
      some { name := "x", type := .TYPE_I32, is_const := false
             stack_offset := 8 } ∧
    (native_codegen_function cgF "g" g_body).1 = true ∧
    (native_codegen_function cgF "g" g_body).2.had_error = false ∧
    (native_codegen_function cgF "g" g_body).2.instructions.get?
        (cgF.instructions.length + 3) =
      some { opcode := .INST_MOV
             operands := [{ value := .register .REG_RAX, size := 8 },
                          { value := .memory .REG_RBP (-8), size := 8 }]
             label := none } := by
  refine ⟨by decide, by decide, by decide, by decide⟩

/-- Claim C6.  The push/pop bracketing of binary-expression lowering is
correct at the IR level: the IR emitted for `((1+2)*(3+4))` evaluates to
21 in register A.  But the encoder has no case for `INST_MUL` and emits
`0x90` (nop) for it, so the encoded machine code for the same sequence
leaves 3 — the left operand restored by the final `pop` — in rax, and the
compiled program does not compute 21. -/
theorem c6_ir_computes_21_machine_code_computes_3 :
    (native_codegen_expression native_codegen_create expr2134 .REG_RAX).1
        = true ∧
    (ir_run cgExpr.instructions 100 (ir_initial 0)).regs .REG_RAX = 21 ∧
    (mach_run (generate_machine_code_bytes cgExpr.instructions) 100
        (mach_initial 0)).regs 0 = 3 ∧
    (3 : Int) ≠ 21 := by
  refine ⟨by decide, by decide, by decide, by decide⟩

/-- Claim C7, counterexample.  For `prog42` the ELF header records the
entry point `BASE_ADDRESS + 120` (load base plus the two header sizes,
i.e. byte offset 0 of the code), while the `_start` label resolves to byte
offset 34 — so the recorded entry is neither `load base + 34` nor
`code start + 34`: it is not computed from the resolved `_start` offset. -/
theorem c7_counterexample_entry_not_at_start_label :
    (generate_elf_executable cg42).2.1.e_entry = BASE_ADDRESS + 120 ∧
    resolve_label cg42.instructions 0 "_start" = some 34 ∧
    BASE_ADDRESS + 120 ≠ BASE_ADDRESS + 34 ∧
    BASE_ADDRESS + 120 ≠ BASE_ADDRESS + 120 + 34 := by
  refine ⟨by decide, by decide, by decide, by decide⟩

/-- Claim C7, amended.  The recorded entry address is always the fixed
load base plus the combined size of the ELF and program headers — byte
offset 0 of the code region, which holds the first lowered function — and
is not computed from the `_start` label, which for `prog42` resolves to
offset 34 ≠ 0 (its first instruction being the `call` at 34). -/
theorem c7_entry_points_at_code_offset_zero :
    (∀ cg : NativeCodeGen,
      (generate_elf_executable cg).2.1.e_entry =
          BASE_ADDRESS + elf_header_size + program_header_size ∧
      (generate_elf_executable cg).2.2.1.p_vaddr = BASE_ADDRESS ∧
      (generate_elf_executable cg).2.2.1.p_offset = 0) ∧
    resolve_label cg42.instructions 0 "_start" = some 34 ∧ 34 ≠ 0 := by
  refine ⟨fun cg => ⟨rfl, rfl, rfl⟩, by decide, by decide⟩

/-- Claim C8, counterexample.  On a context whose IR is a single `ret`,
the first encoder run leaves the buffer `[0xC3]` and the second leaves
`[0xC3, 0xC3]`: the bytes observable after the second run differ from
those after the first. -/
theorem c8_counterexample_second_run_doubles_buffer :
    (generate_machine_code cgRet).2.code_buffer = [0xC3] ∧
    (generate_machine_code (generate_machine_code cgRet).2).2.code_buffer
        = [0xC3, 0xC3] ∧
    ([0xC3, 0xC3] : List Nat) ≠ [0xC3] := by
  refine ⟨by decide, by decide, by decide⟩

/-- Claim C8, amended.  Each encoder run deterministically appends the
same byte sequence — the encoding of the unchanged IR — to the code buffer
(the `code_size` cursor is never reset): the segment the second run
appends is byte-for-byte identical to the first run's, but the buffer
after the second run is the first buffer followed by that segment again,
so re-running is not idempotent on the context. -/
theorem c8_second_run_appends_identical_segment (cg : NativeCodeGen) :
    (generate_machine_code cg).1 = true ∧
    (generate_machine_code cg).2.code_buffer =
      cg.code_buffer ++ generate_machine_code_bytes cg.instructions ∧
    (generate_machine_code cg).2.instructions = cg.instructions ∧
    (generate_machine_code (generate_machine_code cg).2).2.code_buffer =
      (generate_machine_code cg).2.code_buffer ++
        generate_machine_code_bytes cg.instructions :=
  ⟨rfl, rfl, rfl, rfl⟩

/-- Claim C10.  Every `mov` whose two operands are one register and one
memory reference — the shapes `native_codegen_identifier` emits for loads
`mov dest, [rbp - offset]` and `native_codegen_var_declaration` for stores
`mov [rbp - offset], src` — falls into the encoder's fallback branch and
is encoded as the fixed bytes `0x48 0x89 0xC0` (`mov rax, rax`), whatever
the registers and offset are; the encoded instruction therefore touches no
stack slot. -/
theorem c10_reg_mem_mov_encodes_as_fixed_fallback (reg base : X86Register)
    (offset : Int) (s0 s1 : Nat) (lbl : Option String) :
    encode_instruction
        { opcode := .INST_MOV
          operands := [{ value := .register reg, size := s0 },
                       { value := .memory base offset, size := s1 }]
          label := lbl } = [0x48, 0x89, 0xC0] ∧
    encode_instruction
        { opcode := .INST_MOV
          operands := [{ value := .memory base offset, size := s0 },
                       { value := .register reg, size := s1 }]
          label := lbl } = [0x48, 0x89, 0xC0] :=
  ⟨rfl, rfl⟩

/-! ## The stack-slot discipline (claim C9 machinery)

Only `add_variable_symbol` ever touches `variables'` or `stack_offset`;
every other state transformer preserves both fields.  The lemmas below
make that observation usable: expression lowering preserves the two
fields, and statement lowering extends the variable table by a block of
bindings whose offsets continue in 8-byte steps from the current cursor. -/

theorem append_instruction_vars (codegen : NativeCodeGen)
    (inst : Instruction) :
    (append_instruction codegen inst).variables' = codegen.variables' ∧
    (append_instruction codegen inst).stack_offset = codegen.stack_offset :=
  ⟨rfl, rfl⟩

theorem emit_label_vars (codegen : NativeCodeGen) (label : String) :
    (emit_label codegen label).variables' = codegen.variables' ∧
    (emit_label codegen label).stack_offset = codegen.stack_offset :=
  ⟨rfl, rfl⟩

theorem emit_instruction_vars (codegen : NativeCodeGen)
    (opcode : X86Instruction) :
    (emit_instruction codegen opcode).variables' = codegen.variables' ∧
    (emit_instruction codegen opcode).stack_offset = codegen.stack_offset :=
  ⟨rfl, rfl⟩

theorem emit_instruction_reg_vars (codegen : NativeCodeGen)
    (opcode : X86Instruction) (reg : X86Register) :
    (emit_instruction_reg codegen opcode reg).variables' =
        codegen.variables' ∧
    (emit_instruction_reg codegen opcode reg).stack_offset =
      codegen.stack_offset :=
  ⟨rfl, rfl⟩

theorem emit_instruction_reg_reg_vars (codegen : NativeCodeGen)
    (opcode : X86Instruction) (dst src : X86Register) :
    (emit_instruction_reg_reg codegen opcode dst src).variables' =
        codegen.variables' ∧
    (emit_instruction_reg_reg codegen opcode dst src).stack_offset =
      codegen.stack_offset :=
  ⟨rfl, rfl⟩

theorem emit_instruction_reg_imm_vars (codegen : NativeCodeGen)
    (opcode : X86Instruction) (reg : X86Register) (imm : Int) :
    (emit_instruction_reg_imm codegen opcode reg imm).variables' =
        codegen.variables' ∧
    (emit_instruction_reg_imm codegen opcode reg imm).stack_offset =
      codegen.stack_offset :=
  ⟨rfl, rfl⟩

theorem emit_instruction_reg_mem_vars (codegen : NativeCodeGen)
    (opcode : X86Instruction) (reg base : X86Register) (offset : Int) :
    (emit_instruction_reg_mem codegen opcode reg base offset).variables' =
        codegen.variables' ∧
    (emit_instruction_reg_mem codegen opcode reg base offset).stack_offset =
      codegen.stack_offset :=
  ⟨rfl, rfl⟩

theorem emit_instruction_mem_reg_vars (codegen : NativeCodeGen)
    (opcode : X86Instruction) (base : X86Register) (offset : Int)
    (reg : X86Register) :
    (emit_instruction_mem_reg codegen opcode base offset reg).variables' =
        codegen.variables' ∧
    (emit_instruction_mem_reg codegen opcode base offset reg).stack_offset =
      codegen.stack_offset :=
  ⟨rfl, rfl⟩

theorem emit_instruction_label_vars (codegen : NativeCodeGen)
    (opcode : X86Instruction) (label : String) :
    (emit_instruction_label codegen opcode label).variables' =
        codegen.variables' ∧
    (emit_instruction_label codegen opcode label).stack_offset =
      codegen.stack_offset :=
  ⟨rfl, rfl⟩

theorem emit_syscall_exit_vars (codegen : NativeCodeGen) (exit_code : Int) :
    (emit_syscall_exit codegen exit_code).variables' = codegen.variables' ∧
    (emit_syscall_exit codegen exit_code).stack_offset =
      codegen.stack_offset :=
  ⟨rfl, rfl⟩

theorem native_codegen_error_vars (codegen : NativeCodeGen)
    (message : String) :
    (native_codegen_error codegen message).variables' = codegen.variables' ∧
    (native_codegen_error codegen message).stack_offset =
      codegen.stack_offset :=
  ⟨rfl, rfl⟩

theorem add_string_literal_vars (codegen : NativeCodeGen) (content : String) :
    (add_string_literal codegen content).2.variables' = codegen.variables' ∧
    (add_string_literal codegen content).2.stack_offset =
      codegen.stack_offset :=
  ⟨rfl, rfl⟩

theorem emit_syscall_write_vars (codegen : NativeCodeGen)
    (string_label : String) :
    (emit_syscall_write codegen string_label).variables' =
        codegen.variables' ∧
    (emit_syscall_write codegen string_label).stack_offset =
      codegen.stack_offset := by
  cases h : codegen.string_literals.find? (fun str => str.label == string_label) <;>
    simp [emit_syscall_write, h, native_codegen_error]

theorem binary_result_move_vars (codegen : NativeCodeGen)
    (result_reg : X86Register) :
    (binary_result_move codegen result_reg).2.variables' =
        codegen.variables' ∧
    (binary_result_move codegen result_reg).2.stack_offset =
      codegen.stack_offset := by
  unfold binary_result_move
  split <;> exact ⟨rfl, rfl⟩

theorem native_codegen_literal_vars (codegen : NativeCodeGen)
    (lit : LiteralValue) (result_reg : X86Register) :
    (native_codegen_literal codegen lit result_reg).2.variables' =
        codegen.variables' ∧
    (native_codegen_literal codegen lit result_reg).2.stack_offset =
      codegen.stack_offset := by
  cases lit <;> exact ⟨rfl, rfl⟩

theorem native_codegen_identifier_vars (codegen : NativeCodeGen)
    (name : String) (result_reg : X86Register) :
    (native_codegen_identifier codegen name result_reg).2.variables' =
        codegen.variables' ∧
    (native_codegen_identifier codegen name result_reg).2.stack_offset =
      codegen.stack_offset := by
  cases h : lookup_variable codegen name <;>
    simp [native_codegen_identifier, h, native_codegen_error,
      emit_instruction_reg_mem, append_instruction]

/-- Expression lowering never touches the variable table or the
stack-offset cursor (no expression form declares a variable). -/
theorem native_codegen_expression_preserves_vars (cg : NativeCodeGen)
    (e : ASTNode) (r : X86Register) :
    (native_codegen_expression cg e r).2.variables' = cg.variables' ∧
    (native_codegen_expression cg e r).2.stack_offset = cg.stack_offset := by
  induction cg, e, r using native_codegen_expression.induct
  case case20 =>
    rename_i h
    unfold native_codegen_expression
    simp [h, native_codegen_error, beq_iff_eq]
  all_goals
    simp_all [native_codegen_expression, native_codegen_literal_vars,
      native_codegen_identifier_vars, binary_result_move_vars,
      emit_syscall_write_vars, native_codegen_error_vars,
      emit_instruction_vars, emit_instruction_reg_vars,
      emit_instruction_reg_reg_vars, emit_instruction_reg_imm_vars,
      beq_iff_eq]

theorem vars_pres_extends {cg cg' : NativeCodeGen}
    (h1 : cg'.variables' = cg.variables')
    (h2 : cg'.stack_offset = cg.stack_offset) : vars_extends cg cg' :=
  ⟨[], by simp [h1], by simp, by simp [h2]⟩

theorem vars_extends_trans {a b c : NativeCodeGen}
    (h1 : vars_extends a b) (h2 : vars_extends b c) : vars_extends a c := by
  obtain ⟨n1, hv1, ho1, hs1⟩ := h1
  obtain ⟨n2, hv2, ho2, hs2⟩ := h2
  refine ⟨n2 ++ n1, by simp [hv2, hv1], ?_, ?_⟩
  · rw [List.reverse_append, List.map_append, ho1, ho2, hs1,
      List.length_append, Nat.add_comm n2.length n1.length, List.range_add,
      List.map_append, List.map_map]
    congr 1
    have hfg : ((fun i : Nat => a.stack_offset + 8 * (i : Int)) ∘
          fun x : Nat => n1.length + x) =
        fun i : Nat =>
          a.stack_offset + 8 * (n1.length : Int) + 8 * (i : Int) := by
      funext i
      simp only [Function.comp_apply]
      push_cast
      ring
    rw [hfg]
  · rw [hs2, hs1, List.length_append]
    push_cast
    ring

theorem vars_extends_pres {a b c : NativeCodeGen} (h1 : vars_extends a b)
    (h2 : c.variables' = b.variables') (h3 : c.stack_offset = b.stack_offset) :
    vars_extends a c :=
  vars_extends_trans h1 (vars_pres_extends h2 h3)

/-- `add_variable_symbol` extends the table by exactly one binding at the
current cursor. -/
theorem add_variable_symbol_extends (cg : NativeCodeGen) (name : String)
    (type : ZenType) (is_const : Bool) :
    vars_extends cg (add_variable_symbol cg name type is_const).2 := by
  refine ⟨[{ name := name, type := type, is_const := is_const
             stack_offset := cg.stack_offset }], rfl,
    by simp [List.range_succ], by simp [add_variable_symbol]⟩

/-- Lowering a variable declaration extends the table by its binding (an
initializer, if present, is an expression and declares nothing). -/
theorem native_codegen_var_declaration_extends (cg : NativeCodeGen)
    (name : String) (var_type : ZenType) (is_const : Bool)
    (initializer : ASTNodeOpt) :
    vars_extends cg
      (native_codegen_var_declaration cg name var_type is_const
        initializer).2 := by
  have hA := add_variable_symbol_extends cg name var_type is_const
  rcases hadd : add_variable_symbol cg name var_type is_const with ⟨symbol, cg1⟩
  rw [hadd] at hA
  cases initializer with
  | none => simpa [native_codegen_var_declaration, hadd] using hA
  | some init =>
    have hp := native_codegen_expression_preserves_vars cg1 init .REG_RAX
    rcases hE : native_codegen_expression cg1 init .REG_RAX with ⟨ok, cg2⟩
    rw [hE] at hp
    cases ok with
    | false =>
      simpa [native_codegen_var_declaration, hadd, hE] using
        vars_extends_pres hA hp.1 hp.2
    | true =>
      simp only [native_codegen_var_declaration, hadd, hE]
      exact vars_extends_pres hA
        (by simpa [emit_instruction_mem_reg_vars] using hp.1)
        (by simpa [emit_instruction_mem_reg_vars] using hp.2)

/-- Lowering a return statement preserves the variable table and cursor. -/
theorem native_codegen_return_stmt_vars (cg : NativeCodeGen)
    (value : ASTNodeOpt) :
    (native_codegen_return_stmt cg value).2.variables' = cg.variables' ∧
    (native_codegen_return_stmt cg value).2.stack_offset = cg.stack_offset := by
  cases value with
  | none =>
    simp [native_codegen_return_stmt, emit_instruction_reg_imm_vars,
      emit_instruction_reg_reg_vars, emit_instruction_reg_vars,
      emit_instruction_vars]
  | some v =>
    have hp := native_codegen_expression_preserves_vars cg v .REG_RAX
    rcases hE : native_codegen_expression cg v .REG_RAX with ⟨ok, cg1⟩
    rw [hE] at hp
    cases ok <;>
      simp_all [native_codegen_return_stmt, hE, emit_instruction_reg_reg_vars,
        emit_instruction_reg_vars, emit_instruction_vars]

/-- Any statement's lowering extends the variable table by the variables
it declares, with offsets continuing in 8-byte steps from the cursor. -/
theorem native_codegen_statement_extends (cg : NativeCodeGen) (s : ASTNode) :
    vars_extends cg (native_codegen_statement cg s).2 := by
  induction cg, s using native_codegen_statement.induct with
  | motive_2 cg stmts =>
    exact vars_extends cg (native_codegen_block_stmt cg stmts).2
  | case1 cg name var_type is_const initializer =>
    simpa [native_codegen_statement] using
      native_codegen_var_declaration_extends cg name var_type is_const
        initializer
  | case2 cg value =>
    have h := native_codegen_return_stmt_vars cg value
    simpa [native_codegen_statement] using vars_pres_extends h.1 h.2
  | case3 cg statements ih =>
    simpa [native_codegen_statement] using ih
  | case4 cg expression =>
    have h := native_codegen_expression_preserves_vars cg expression .REG_RAX
    simpa [native_codegen_statement] using vars_pres_extends h.1 h.2
  | case5 t cg h1 h2 h3 h4 =>
    cases t with
    | varDeclaration a b c d => exact (h1 a b c d rfl).elim
    | returnStmt a => exact (h2 a rfl).elim
    | blockStmt a => exact (h3 a rfl).elim
    | expressionStmt a => exact (h4 a rfl).elim
    | _ => exact vars_pres_extends rfl rfl
  | case6 cg => exact vars_pres_extends rfl rfl
  | case7 cg a rest ok cg1 heq hok ih =>
    rw [show native_codegen_block_stmt cg (.cons a rest) = (false, cg1) by
      simp [native_codegen_block_stmt, heq, hok]]
    rw [heq] at ih
    exact ih
  | case8 cg a rest ok cg1 heq hok ih1 ih2 =>
    rw [show native_codegen_block_stmt cg (.cons a rest) =
        native_codegen_block_stmt cg1 rest by
      simp_all [native_codegen_block_stmt, heq]]
    rw [heq] at ih1
    exact vars_extends_trans ih1 ih2

/-- `native_codegen_function`'s result carries the variable table and
cursor of the body lowering started at `function_entry_state` (the
epilogue emits touch neither). -/
theorem native_codegen_function_vars_eq (cg : NativeCodeGen) (name : String)
    (body : ASTNode) :
    (native_codegen_function cg name body).2.variables' =
      (native_codegen_statement (function_entry_state cg name) body).2.variables' ∧
    (native_codegen_function cg name body).2.stack_offset =
      (native_codegen_statement (function_entry_state cg name) body).2.stack_offset := by
  rcases hS : native_codegen_statement (function_entry_state cg name) body
    with ⟨ok, cgB⟩
  cases ok <;>
    simp_all [native_codegen_function, function_entry_state,
      add_function_symbol, create_label, emit_instruction_reg_imm_vars,
      emit_instruction_reg_reg_vars, emit_instruction_reg_vars,
      emit_instruction_vars]

/-- Lowering a function extends the variable table by the bindings its
body declares, whose offsets in declaration order start at 8 and step by
8. -/
theorem native_codegen_function_extends (cg : NativeCodeGen) (name : String)
    (body : ASTNode) :
    ∃ new : List VariableSymbol,
      (native_codegen_function cg name body).2.variables' =
        new ++ cg.variables' ∧
      new.reverse.map VariableSymbol.stack_offset =
        (List.range new.length).map
          (fun i : Nat => (8 : Int) + 8 * (i : Int)) := by
  obtain ⟨new, hv, ho, _⟩ :=
    native_codegen_statement_extends (function_entry_state cg name) body
  have hpv : (function_entry_state cg name).variables' = cg.variables' := rfl
  have hps : (function_entry_state cg name).stack_offset = 8 := rfl
  rw [hpv] at hv
  rw [hps] at ho
  exact ⟨new, by rw [(native_codegen_function_vars_eq cg name body).1, hv],
    ho⟩

/-- Claim C9.  For every function lowering — over any context, any body
shape, and in particular any declared variable types — the variables the
function declares (the block `new` prepended to the variable table; `new`
reversed is declaration order) receive stack offsets exactly
`8, 16, 24, …, 8k` for `k = new.length`: offset `8 * (i + 1)` for the
`i`-th declaration.  The offsets are fixed by the reset-to-8 cursor and
the fixed 8-byte slot of `add_variable_symbol`; no variable's type enters
the computation. -/
theorem c9_stack_offsets_are_8_to_8k (cg : NativeCodeGen) (name : String)
    (body : ASTNode) :
    ∃ new : List VariableSymbol,
      (native_codegen_function cg name body).2.variables' =
        new ++ cg.variables' ∧
      new.reverse.map VariableSymbol.stack_offset =
        (List.range new.length).map
          (fun i : Nat => 8 * ((i : Int) + 1)) := by
  obtain ⟨new, hv, ho⟩ := native_codegen_function_extends cg name body
  refine ⟨new, hv, ?_⟩
  rw [ho]
  have hfg : (fun i : Nat => (8 : Int) + 8 * (i : Int)) =
      fun i : Nat => 8 * ((i : Int) + 1) := by
    funext i
    ring
  rw [hfg]

/-- Claim C5, amended.  At the start of a function's lowering only the
stack-offset cursor (reset to 8) and the current-function name are reset;
the variable table persists.  Hence for any context holding a binding for
`x` — for instance one left by a previously lowered function — lowering a
function whose body is `return x;` succeeds with no error: the lookup
finds the persisted binding and emits a load from that binding's stack
slot, rather than failing with an undefined-variable error. -/
theorem c5_variable_table_persists_across_functions (cg : NativeCodeGen)
    (name x : String) (v : VariableSymbol)
    (h : lookup_variable cg x = some v) :
    (native_codegen_function cg name
        (.returnStmt (.some (.identifierExpr x)))).1 = true ∧
    (native_codegen_function cg name
        (.returnStmt (.some (.identifierExpr x)))).2.had_error =
      cg.had_error ∧
    (native_codegen_function cg name
        (.returnStmt (.some (.identifierExpr x)))).2.current_function =
      some name ∧
    (native_codegen_function cg name
        (.returnStmt (.some (.identifierExpr x)))).2.stack_offset = 8 ∧
    (native_codegen_function cg name
        (.returnStmt (.some (.identifierExpr x)))).2.variables' =
      cg.variables' ∧
    (native_codegen_function cg name
        (.returnStmt (.some (.identifierExpr x)))).2.instructions =
      cg.instructions ++
        [{ opcode := .INST_NOP, operands := []
           label := some ("func_" ++ toString cg.label_counter) },
         { opcode := .INST_PUSH
           operands := [{ value := .register .REG_RBP, size := 8 }]
           label := none },
         { opcode := .INST_MOV
           operands := [{ value := .register .REG_RBP, size := 8 },
                        { value := .register .REG_RSP, size := 8 }]
           label := none },
         { opcode := .INST_MOV
           operands := [{ value := .register .REG_RAX, size := 8 },
                        { value := .memory .REG_RBP (-v.stack_offset)
                          size := 8 }]
           label := none },
         { opcode := .INST_MOV
           operands := [{ value := .register .REG_RSP, size := 8 },
                        { value := .register .REG_RBP, size := 8 }]
           label := none },
         { opcode := .INST_POP
           operands := [{ value := .register .REG_RBP, size := 8 }]
           label := none },
         { opcode := .INST_RET, operands := [], label := none },
         { opcode := .INST_MOV
           operands := [{ value := .register .REG_RAX, size := 8 },
                        { value := .immediate 0, size := 8 }]
           label := none },
         { opcode := .INST_MOV
           operands := [{ value := .register .REG_RSP, size := 8 },
                        { value := .register .REG_RBP, size := 8 }]
           label := none },
         { opcode := .INST_POP
           operands := [{ value := .register .REG_RBP, size := 8 }]
           label := none },
         { opcode := .INST_RET, operands := [], label := none }] := by
  simp only [lookup_variable] at h
  simp [native_codegen_function, add_function_symbol, create_label,
    emit_label, emit_instruction_reg, emit_instruction_reg_reg,
    emit_instruction_reg_imm, emit_instruction_reg_mem, emit_instruction,
    append_instruction, native_codegen_statement,
    native_codegen_return_stmt, native_codegen_expression,
    native_codegen_identifier, lookup_variable, h]

/-- Claim C5, witness for `c5_variable_table_persists_across_functions`:
the context after lowering `func f() { var x: i32 = 1; }` holds `x` at
offset 8, and lowering `func g() { return x; }`-style code from it
succeeds. -/
theorem c5_witness :
    (native_codegen_function cgF "g"
        (.returnStmt (.some (.identifierExpr "x")))).1 = true ∧
    (native_codegen_function cgF "g"
        (.returnStmt (.some (.identifierExpr "x")))).2.had_error =
      cgF.had_error ∧
    (native_codegen_function cgF "g"
        (.returnStmt (.some (.identifierExpr "x")))).2.current_function =
      some "g" ∧
    (native_codegen_function cgF "g"
        (.returnStmt (.some (.identifierExpr "x")))).2.stack_offset = 8 ∧
    (native_codegen_function cgF "g"
        (.returnStmt (.some (.identifierExpr "x")))).2.variables' =
      cgF.variables' ∧
    (native_codegen_function cgF "g"
        (.returnStmt (.some (.identifierExpr "x")))).2.instructions =
      cgF.instructions ++
        [{ opcode := .INST_NOP, operands := []
           label := some ("func_" ++ toString cgF.label_counter) },
         { opcode := .INST_PUSH
           operands := [{ value := .register .REG_RBP, size := 8 }]
           label := none },
         { opcode := .INST_MOV
           operands := [{ value := .register .REG_RBP, size := 8 },
                        { value := .register .REG_RSP, size := 8 }]
           label := none },
         { opcode := .INST_MOV
           operands := [{ value := .register .REG_RAX, size := 8 },
                        { value := .memory .REG_RBP (-8), size := 8 }]
           label := none },
         { opcode := .INST_MOV
           operands := [{ value := .register .REG_RSP, size := 8 },
                        { value := .register .REG_RBP, size := 8 }]
           label := none },
         { opcode := .INST_POP
           operands := [{ value := .register .REG_RBP, size := 8 }]
           label := none },
         { opcode := .INST_RET, operands := [], label := none },
         { opcode := .INST_MOV
           operands := [{ value := .register .REG_RAX, size := 8 },
                        { value := .immediate 0, size := 8 }]
           label := none },
         { opcode := .INST_MOV
           operands := [{ value := .register .REG_RSP, size := 8 },
                        { value := .register .REG_RBP, size := 8 }]
           label := none },
         { opcode := .INST_POP
           operands := [{ value := .register .REG_RBP, size := 8 }]
           label := none },
         { opcode := .INST_RET, operands := [], label := none }] :=
  c5_variable_table_persists_across_functions cgF "g" "x"
    { name := "x", type := .TYPE_I32, is_const := false, stack_offset := 8 }
    (by decide)

end Zen
